import Mathlib

/-!
Verification of the Pico FIDO commissioner tool
(src/tools/commissioner-cli/main.py) against its specification.

The protocol core is embedded shallowly:
  * CBOR byte-level encoding of the unsigned integers, byte strings and
    integer-keyed maps that the tool actually serialises (the python code
    uses cbor2.dumps for the MAC message, which encodes dict entries in
    insertion order, and fido2's Ctap2.send_cbor for the wire envelope,
    which encodes maps in CTAP2 canonical order);
  * the mutable attributes of the PicoFIDODevice object as a DevState
    record, with each method becoming a state-passing function; external
    effects (HID exchanges, the PIN-protocol MAC, device answers) are
    oracle parameters, and each transport interaction is recorded in an
    event trace.
-/

namespace PicoFido

/-- Big-endian byte list of `n`, exactly `k` bytes long. -/
def beBytes : Nat → Nat → List Nat
  | 0, _ => []
  | k + 1, n => n / 2 ^ (8 * k) % 256 :: beBytes k n

/-- CBOR head for major type `major` with argument `n`, using the shortest
form (both cbor2 and fido2's encoder always emit the minimal-length head). -/
def cborHead (major n : Nat) : List Nat :=
  if n < 24 then [32 * major + n]
  else if n < 2 ^ 8 then (32 * major + 24) :: beBytes 1 n
  else if n < 2 ^ 16 then (32 * major + 25) :: beBytes 2 n
  else if n < 2 ^ 32 then (32 * major + 26) :: beBytes 4 n
  else (32 * major + 27) :: beBytes 8 n

/-- Encoding of a map with unsigned-integer keys and values, entries taken
in list order.  This models `cbor2.dumps` applied to a python dict literal:
cbor2's default mode writes the entries in insertion order. -/
def natMapEnc (es : List (Nat × Nat)) : List Nat :=
  cborHead 5 es.length ++ (es.map fun e => cborHead 0 e.1 ++ cborHead 0 e.2).flatten

/-- Bytewise lexicographic order on byte lists (a strict prefix sorts first). -/
def lexLe : List Nat → List Nat → Bool
  | [], _ => true
  | _ :: _, [] => false
  | a :: as, b :: bs => if a < b then true else if b < a then false else lexLe as bs

/-- Insert a keyed entry in front of the first entry whose encoded key is
not smaller (insertion step of the canonical key sort). -/
def insertByEncKey {α : Type} (p : Nat × α) : List (Nat × α) → List (Nat × α)
  | [] => [p]
  | q :: qs =>
    if lexLe (cborHead 0 p.1) (cborHead 0 q.1) then p :: q :: qs
    else q :: insertByEncKey p qs

/-- Sort map entries by the bytewise order of their encoded keys, the map
ordering of canonical (CTAP2 / deterministic) CBOR. -/
def sortByEncKey {α : Type} : List (Nat × α) → List (Nat × α)
  | [] => []
  | p :: ps => insertByEncKey p (sortByEncKey ps)

/-- Canonical CBOR encoding of a map with unsigned-integer keys and values:
entries sorted by encoded key.  This is the spec side of the refinement:
the specification demands "the canonical CBOR encoding of the mapping". -/
def specCanonicalNatMapEnc (es : List (Nat × Nat)) : List Nat :=
  cborHead 5 es.length ++
    ((sortByEncKey es).map fun e => cborHead 0 e.1 ++ cborHead 0 e.2).flatten

/-- CBOR values occurring in the tool's envelopes: unsigned integers, byte
strings, and nested integer maps. -/
inductive CVal : Type where
  | uint (n : Nat)
  | bytes (bs : List Nat)
  | nmap (es : List (Nat × Nat))
deriving DecidableEq, Repr

/-- Value encoding as performed by fido2's CTAP2 canonical CBOR encoder
(used by `Ctap2.send_cbor`): nested maps are also key-sorted. -/
def encValC : CVal → List Nat
  | .uint n => cborHead 0 n
  | .bytes bs => cborHead 2 bs.length ++ bs
  | .nmap es =>
    cborHead 5 es.length ++
      ((sortByEncKey es).map fun e => cborHead 0 e.1 ++ cborHead 0 e.2).flatten

/-- CTAP2 canonical encoding of a top-level map with integer keys and `CVal`
values, as produced by fido2's encoder inside `Ctap2.send_cbor`. -/
def mapEncC (es : List (Nat × CVal)) : List Nat :=
  cborHead 5 es.length ++
    ((sortByEncKey es).map fun e => cborHead 0 e.1 ++ encValC e.2).flatten

/-! ## Constants from main.py -/

def CTAP_AUTHENTICATOR_CONFIG : Nat := 0x0D

def CTAP_CONFIG_PHY_VIDPID : Nat := 0x6fcb19b0cbe3acfa
def CTAP_CONFIG_PHY_LED_BTNESS : Nat := 0x76a85945985d02fd
def CTAP_CONFIG_PHY_LED_GPIO : Nat := 0x7b392a394de9f948
def CTAP_CONFIG_PHY_OPTS : Nat := 0x269f3b09eceb805f
def CTAP_CONFIG_PHY_UP_BTN : Nat := 0x1a2b3c4d5e6f7890

/-- The PIN-token permission requested by `get_pin_token`
(`PERMISSION_ACFG = 0x20` in the source). -/
def PERMISSION_ACFG : Nat := 0x20

/-! ## Data model -/

/-- Snapshot of device information: the `clientPin` option consulted by the
tool, plus an abstract tag standing for the rest of the `get_info` answer,
so that distinct fetches are distinguishable. -/
structure Info : Type where
  clientPin : Bool
  snapshot : Nat
deriving DecidableEq, Repr

/-- The mutable attributes of the `PicoFIDODevice` object.  `dev`/`ctap2`
model the bound transport handle, `pin_token` the live session token
(opaque, as a `Nat`), `pin_protocol` the negotiated PIN-protocol version. -/
structure DevState : Type where
  dev : Option Nat
  ctap2 : Bool
  info : Option Info
  client_pin : Bool
  pin_token : Option Nat
  pin_protocol : Nat
deriving DecidableEq, Repr

/-- The fresh `PicoFIDODevice()` object: every attribute is `None`. -/
def initDevState : DevState :=
  { dev := none, ctap2 := false, info := none, client_pin := false
    pin_token := none, pin_protocol := 0 }

/-- Observable interactions of one method call: a PIN-token request (with
the permission mask it carries), a MAC computation (token and message), a
CBOR command exchange (command byte and payload), and the PIN / info /
reset exchanges. -/
inductive Event : Type where
  | authRequest (permission : Nat)
  | macCompute (token : Nat) (message : List Nat)
  | cborSend (cmd : Nat) (payload : List Nat)
  | changePinExchange
  | setPinExchange
  | getInfoExchange
  | resetExchange
deriving DecidableEq, Repr

/-! ## Operations -/

/-- `PicoFIDODevice.find_device`: list the HID devices, bind `devices[0]`
and build the Ctap2 handle, then fetch the info; `infoRes = none` models
`get_info` raising (caught, `False` returned, the handle stays bound). -/
def find_device (s : DevState) (devices : List Nat) (infoRes : Option Info) :
    Bool × DevState :=
  match devices with
  | [] => (false, s)
  | d :: _ =>
    let s1 := { s with dev := some d, ctap2 := true }
    match infoRes with
    | some i => (true, { s1 with info := some i })
    | none => (false, s1)

/-- `PicoFIDODevice.get_pin_token`: guard on the handle and the device's
`clientPin` option, build the ClientPin helper and probe the protocol
version (`ver` is what the probe yields), then exchange the PIN for a
token scoped to `PERMISSION_ACFG`.  `authOk = false` models the library
call raising (wrong PIN, transport failure); the exception is caught and
`False` returned. -/
def get_pin_token (s : DevState) (ver : Nat) (authOk : Bool) (newTok : Nat) :
    Bool × DevState × List Event :=
  if s.ctap2 = false then (false, s, [])
  else
    match s.info with
    | none => (false, s, [])
    | some i =>
      if i.clientPin = false then (false, s, [])
      else
        let s1 := { s with client_pin := true, pin_protocol := ver }
        if authOk then
          (true, { s1 with pin_token := some newTok }, [.authRequest PERMISSION_ACFG])
        else (false, s1, [.authRequest PERMISSION_ACFG])

/-- `PicoFIDODevice.reset_device`: send the reset (button press required),
then refetch the info and clear the token and ClientPin helper.
`resetOk = false` models `ctap2.reset()` raising (NOT_ALLOWED, button
timeout, transport loss); `newInfo = none` models the follow-up
`get_info` raising.  Either exception is caught and `False` returned
before any attribute assignment runs. -/
def reset_device (s : DevState) (resetOk : Bool) (newInfo : Option Info) :
    Bool × DevState × List Event :=
  if s.ctap2 = false then (false, s, [])
  else if resetOk = false then (false, s, [.resetExchange])
  else
    match newInfo with
    | none => (false, s, [.resetExchange, .getInfoExchange])
    | some i =>
      (true,
       { s with info := some i, pin_token := none, client_pin := false },
       [.resetExchange, .getInfoExchange])

/-- `PicoFIDODevice.set_pin` with the new PIN supplied by the caller:
ensure the ClientPin helper, then branch on the device's `clientPin`
option.  With a PIN already set the tool prompts for the old PIN and calls
`change_pin` directly — there is no local length check on that path.  On
the first-time-set path a `len(new_pin) < 4` guard runs before any
exchange; after a successful `set_pin` the info is refetched (`newInfo =
none` models that refetch raising).  The common tail clears the token on
success; `deviceOk = false` models the PIN exchange raising. -/
def set_pin (s : DevState) (new_pin : String) (deviceOk : Bool)
    (newInfo : Option Info) : Bool × DevState × List Event :=
  if s.ctap2 = false then (false, s, [])
  else
    let s0 := { s with client_pin := true }
    match s.info with
    | none => (false, s0, [])
    | some i =>
      if i.clientPin then
        if deviceOk then (true, { s0 with pin_token := none }, [.changePinExchange])
        else (false, s0, [.changePinExchange])
      else
        if new_pin.length < 4 then (false, s0, [])
        else if deviceOk then
          match newInfo with
          | some ni =>
            (true, { s0 with info := some ni, pin_token := none },
             [.setPinExchange, .getInfoExchange])
          | none => (false, s0, [.setPinExchange, .getInfoExchange])
        else (false, s0, [.setPinExchange])

/-- The `subcommand_params` dict of `send_config_command` serialised by
`cbor2.dumps`: entries in insertion order `0x01, 0x03`. -/
def subcommand_bytes (cid val : Nat) : List Nat :=
  natMapEnc [(0x01, cid), (0x03, val)]

/-- The message handed to `pin_protocol.authenticate`:
`b'\xff' * 32 + b'\x0d' + b'\xff' + subcommand_bytes`. -/
def configMessage (cid val : Nat) : List Nat :=
  List.replicate 32 0xFF ++ [0x0D, 0xFF] ++ subcommand_bytes cid val

/-- The `config_data` dict of `send_config_command`, in source order. -/
def config_data (cid val ver : Nat) (pinAuth : List Nat) : List (Nat × CVal) :=
  [(0x01, .uint 0xFF), (0x02, .nmap [(0x01, cid), (0x03, val)]),
   (0x03, .uint ver), (0x04, .bytes pinAuth)]

/-- The wire bytes of the envelope: `Ctap2.send_cbor` serialises
`config_data` with fido2's CTAP2 canonical encoder. -/
def envelopeBytes (cid val ver : Nat) (pinAuth : List Nat) : List Nat :=
  mapEncC (config_data cid val ver pinAuth)

/-- The body of `send_config_command` after a token is held (source lines
215-233): serialise the parameter map, MAC the prefixed message with the
live token, build the envelope and exchange it.  `tagF` is the PIN
protocol's `authenticate` (an opaque deterministic MAC); `exchangeOk =
false` models `send_cbor` raising (transport error or device rejection),
in which case the handler clears the token before returning `False`. -/
def send_dispatch (s : DevState) (pre : List Event) (cid val : Nat)
    (tagF : Nat → List Nat → List Nat) (exchangeOk : Bool) :
    Bool × DevState × List Event :=
  match s.pin_token with
  | none => (false, s, pre)
  | some t =>
    let msg := configMessage cid val
    let pinAuth := tagF t msg
    let payload := envelopeBytes cid val s.pin_protocol pinAuth
    let evs := pre ++ [.macCompute t msg, .cborSend CTAP_AUTHENTICATOR_CONFIG payload]
    if exchangeOk then (true, s, evs)
    else (false, { s with pin_token := none }, evs)

/-- `PicoFIDODevice.send_config_command`: if no token is live, first run
`get_pin_token` (its failure returns `False` with no further action),
then dispatch. -/
def send_config_command (s : DevState) (cid val : Nat) (ver : Nat)
    (authOk : Bool) (newTok : Nat) (tagF : Nat → List Nat → List Nat)
    (exchangeOk : Bool) : Bool × DevState × List Event :=
  match s.pin_token with
  | some _ => send_dispatch s [] cid val tagF exchangeOk
  | none =>
    let r := get_pin_token s ver authOk newTok
    if r.1 then send_dispatch r.2.1 r.2.2 cid val tagF exchangeOk
    else (false, r.2.1, r.2.2)

/-- Core of `configure_vidpid` (UI prompts stripped): range-check the two
16-bit halves, combine them as `(vid << 16) | pid` and hand the pair to
`send_config_command` under `CTAP_CONFIG_PHY_VIDPID`.  The returned pair
is exactly the `(vendor_command_id, param_value)` argument pair of that
call; `none` models the early `return` on a range error. -/
def configure_vidpid (vid pid : Nat) : Option (Nat × Nat) :=
  if 0xFFFF < vid then none
  else if 0xFFFF < pid then none
  else some (CTAP_CONFIG_PHY_VIDPID, (vid <<< 16) ||| pid)

/-- Outcome of `main`'s discovery step. -/
inductive MainOutcome : Type where
  | fatalExit (code : Nat)
  | menu (s : DevState)
deriving DecidableEq, Repr

/-- The discovery step of `main`: a failed `find_device` is fatal
(`sys.exit(1)`); a successful one enters the menu loop. -/
def main_start (devices : List Nat) (infoRes : Option Info) : MainOutcome :=
  let r := find_device initDevState devices infoRes
  if r.1 then .menu r.2 else .fatalExit 1

/-! ## Trace predicates -/

/-- Number of CBOR command exchanges in a trace. -/
def countSends (evs : List Event) : Nat :=
  evs.countP fun e => match e with | .cborSend _ _ => true | _ => false

/-- Whether a trace contains a PIN-token request. -/
def hasAuth (evs : List Event) : Bool :=
  evs.any fun e => match e with | .authRequest _ => true | _ => false

/-- True when the first PIN-token request or CBOR send in the trace (if
any) is a PIN-token request: no command is sent before authenticating. -/
def authBeforeSend : List Event → Bool
  | [] => true
  | .authRequest _ :: _ => true
  | .cborSend _ _ :: _ => false
  | _ :: rest => authBeforeSend rest

/-- Iterate `send_config_command` over a list of `(paramId, value)` pairs
with every exchange succeeding, collecting the final state, the combined
trace, and each call's boolean result. -/
def runSeqSucc (tagF : Nat → List Nat → List Nat) :
    DevState → List (Nat × Nat) → DevState × List Event × List Bool
  | s, [] => (s, [], [])
  | s, (cid, val) :: rest =>
    let r := send_config_command s cid val 0 false 0 tagF true
    let rr := runSeqSucc tagF r.2.1 rest
    (rr.1, r.2.2 ++ rr.2.1, r.1 :: rr.2.2)

/-! ## Sample data for concrete instantiations -/

/-- A device info snapshot reporting a set PIN. -/
def sampleInfo : Info := { clientPin := true, snapshot := 0 }

/-- A connected device object holding a live session token. -/
def sampleTokState : DevState :=
  { dev := some 0, ctap2 := true, info := some sampleInfo, client_pin := true
    pin_token := some 7, pin_protocol := 2 }

/-- A connected device object with no PIN set and no token. -/
def sampleNoPinState : DevState :=
  { dev := some 0, ctap2 := true, info := some { clientPin := false, snapshot := 0 }
    client_pin := false, pin_token := none, pin_protocol := 0 }

/-- A connected device object with a PIN set but no live token yet. -/
def sampleNoTokState : DevState :=
  { dev := some 0, ctap2 := true, info := some sampleInfo, client_pin := false
    pin_token := none, pin_protocol := 0 }

/-- A concrete deterministic MAC function standing in for
`pin_protocol.authenticate` in witness instantiations. -/
def sampleTag : Nat → List Nat → List Nat :=
  fun t m => [t % 256, m.length % 256]

/-! ## Theorems -/

/-- C1: with a live token, `send_config_command` authenticates exactly the
byte string 32 × 0xFF, then 0x0D, then 0xFF, then the canonical CBOR
encoding of the mapping {0x01: paramId, 0x03: value}; and the envelope it
sends is the canonical CBOR encoding of a mapping whose key set is exactly
{0x01, 0x02, 0x03, 0x04}, with 0x01 ↦ 0xFF (as the two bytes 0x18 0xFF),
0x02 ↦ the inner mapping, 0x03 ↦ the negotiated protocol version, and
0x04 ↦ the authentication tag computed over that very message. -/
theorem send_config_command_canonical_bytes
    (s : DevState) (t cid val ver newTok : Nat) (authOk : Bool)
    (tagF : Nat → List Nat → List Nat) (exchangeOk : Bool)
    (htok : s.pin_token = some t) (_hcid : cid < 2 ^ 64) (_hval : val < 2 ^ 64) :
    (send_config_command s cid val ver authOk newTok tagF exchangeOk).2.2 =
      [Event.macCompute t (List.replicate 32 0xFF ++ [0x0D, 0xFF] ++
          specCanonicalNatMapEnc [(0x01, cid), (0x03, val)]),
       Event.cborSend CTAP_AUTHENTICATOR_CONFIG
         ([0xA4, 0x01, 0x18, 0xFF, 0x02] ++
           specCanonicalNatMapEnc [(0x01, cid), (0x03, val)] ++
           [0x03] ++ cborHead 0 s.pin_protocol ++ [0x04] ++
           cborHead 2 (tagF t (configMessage cid val)).length ++
           tagF t (configMessage cid val))] ∧
    (config_data cid val s.pin_protocol (tagF t (configMessage cid val))).map
        Prod.fst = [0x01, 0x02, 0x03, 0x04] := by
  refine ⟨?_, rfl⟩
  cases exchangeOk <;>
    simp [send_config_command, htok, send_dispatch, envelopeBytes, mapEncC,
      config_data, sortByEncKey, insertByEncKey, lexLe, cborHead, encValC,
      specCanonicalNatMapEnc, natMapEnc, configMessage, subcommand_bytes,
      CTAP_AUTHENTICATOR_CONFIG, beBytes]

/-- Witness for C1 at `paramId = 5`, `value = 30`. -/
theorem send_config_command_canonical_bytes_witness :
    sampleTokState.pin_token = some 7 ∧ (5 : Nat) < 2 ^ 64 ∧ (30 : Nat) < 2 ^ 64 ∧
    ((send_config_command sampleTokState 5 30 0 false 0 sampleTag true).2.2 =
      [Event.macCompute 7 (List.replicate 32 0xFF ++ [0x0D, 0xFF] ++
          specCanonicalNatMapEnc [(0x01, 5), (0x03, 30)]),
       Event.cborSend CTAP_AUTHENTICATOR_CONFIG
         ([0xA4, 0x01, 0x18, 0xFF, 0x02] ++
           specCanonicalNatMapEnc [(0x01, 5), (0x03, 30)] ++
           [0x03] ++ cborHead 0 sampleTokState.pin_protocol ++ [0x04] ++
           cborHead 2 (sampleTag 7 (configMessage 5 30)).length ++
           sampleTag 7 (configMessage 5 30))] ∧
     (config_data 5 30 sampleTokState.pin_protocol
        (sampleTag 7 (configMessage 5 30))).map Prod.fst =
       [0x01, 0x02, 0x03, 0x04]) :=
  ⟨rfl, by norm_num, by norm_num,
    send_config_command_canonical_bytes sampleTokState 7 5 30 0 0 false sampleTag
      true rfl (by norm_num) (by norm_num)⟩

/-- C4: a `set_pin` call that returns success (in either its change or its
first-time-set branch) and a `reset_device` call that returns success both
leave the session with no live token. -/
theorem success_pin_ops_clear_token
    (s s2 : DevState) (new_pin : String) (deviceOk : Bool)
    (newInfo resetInfo : Option Info) (resetOk : Bool)
    (hset : (set_pin s new_pin deviceOk newInfo).1 = true)
    (hreset : (reset_device s2 resetOk resetInfo).1 = true) :
    (set_pin s new_pin deviceOk newInfo).2.1.pin_token = none ∧
    (reset_device s2 resetOk resetInfo).2.1.pin_token = none := by
  constructor
  · by_cases hct : s.ctap2 = false
    · simp [set_pin, hct] at hset
    · rcases hi : s.info with _ | i
      · simp [set_pin, hct, hi] at hset
      · by_cases hcp : i.clientPin
        · cases deviceOk
          · simp [set_pin, hct, hi, hcp] at hset
          · simp [set_pin, hct, hi, hcp]
        · by_cases hlen : new_pin.length < 4
          · simp [set_pin, hct, hi, hcp, hlen] at hset
          · cases deviceOk
            · simp [set_pin, hct, hi, hcp, hlen] at hset
            · rcases newInfo with _ | ni
              · simp [set_pin, hct, hi, hcp, hlen] at hset
              · simp [set_pin, hct, hi, hcp, hlen]
  · cases hct : s2.ctap2 <;> cases resetOk <;> cases resetInfo <;>
      simp_all [reset_device]

/-- Witness for C4: a successful PIN change and a successful reset on a
device holding token 7 both end with no token. -/
theorem success_pin_ops_clear_token_witness :
    (set_pin sampleTokState "9999" true none).1 = true ∧
    (reset_device sampleTokState true (some sampleInfo)).1 = true ∧
    ((set_pin sampleTokState "9999" true none).2.1.pin_token = none ∧
     (reset_device sampleTokState true (some sampleInfo)).2.1.pin_token = none) :=
  ⟨by decide, by decide,
    success_pin_ops_clear_token sampleTokState sampleTokState "9999" true none
      (some sampleInfo) true (by decide) (by decide)⟩

/-- C10: a `reset_device` call that fails — reset not allowed, button
timeout, transport loss, or a failing info refetch — leaves every client
attribute (info, token, ClientPin handle, everything) exactly as it was. -/
theorem reset_device_failure_atomic
    (s : DevState) (resetOk : Bool) (newInfo : Option Info)
    (hfail : (reset_device s resetOk newInfo).1 = false) :
    (reset_device s resetOk newInfo).2.1 = s := by
  cases hct : s.ctap2 <;> cases resetOk <;> cases newInfo <;>
    simp_all [reset_device]

/-- Witness for C10: a disallowed reset on a device with a live token
changes nothing. -/
theorem reset_device_failure_atomic_witness :
    (reset_device sampleTokState false none).1 = false ∧
    (reset_device sampleTokState false none).2.1 = sampleTokState :=
  ⟨by decide, reset_device_failure_atomic sampleTokState false none (by decide)⟩

/-- C7: for 16-bit `vid` and `pid`, `configure_vidpid` dispatches parameter
0x6fcb19b0cbe3acfa with the single value `(vid <<< 16) ||| pid`, which
equals `vid * 2^16 + pid` and fits in 32 bits; VID 0x2E8A with PID 0x10FE
encodes 0x2E8A10FE. -/
theorem configure_vidpid_encoding
    (vid pid : Nat) (hv : vid < 2 ^ 16) (hp : pid < 2 ^ 16) :
    configure_vidpid vid pid =
      some (CTAP_CONFIG_PHY_VIDPID, (vid <<< 16) ||| pid) ∧
    (vid <<< 16) ||| pid = vid * 2 ^ 16 + pid ∧
    (vid <<< 16) ||| pid < 2 ^ 32 ∧
    configure_vidpid 0x2E8A 0x10FE = some (0x6fcb19b0cbe3acfa, 0x2E8A10FE) := by
  have hadd : (vid <<< 16) ||| pid = vid * 2 ^ 16 + pid := by
    rw [Nat.shiftLeft_eq, Nat.mul_comm, ← Nat.mul_add_lt_is_or hp vid]
  refine ⟨?_, hadd, ?_, by decide⟩
  · have h1 : ¬ 0xFFFF < vid := by omega
    have h2 : ¬ 0xFFFF < pid := by omega
    simp [configure_vidpid, h1, h2]
  · rw [hadd]; omega

/-- Witness for C7 at VID 0x2E8A, PID 0x10FE. -/
theorem configure_vidpid_encoding_witness :
    (0x2E8A : Nat) < 2 ^ 16 ∧ (0x10FE : Nat) < 2 ^ 16 ∧
    (configure_vidpid 0x2E8A 0x10FE =
      some (CTAP_CONFIG_PHY_VIDPID, (0x2E8A <<< 16) ||| 0x10FE) ∧
     (0x2E8A <<< 16) ||| 0x10FE = 0x2E8A * 2 ^ 16 + 0x10FE ∧
     (0x2E8A <<< 16) ||| 0x10FE < 2 ^ 32 ∧
     configure_vidpid 0x2E8A 0x10FE = some (0x6fcb19b0cbe3acfa, 0x2E8A10FE)) :=
  ⟨by norm_num, by norm_num,
    configure_vidpid_encoding 0x2E8A 0x10FE (by norm_num) (by norm_num)⟩

/-- C8: an empty enumeration makes `find_device` return the not-found
result with the state untouched, and `main` treats that as fatal
(`sys.exit(1)`); a non-empty enumeration binds the first listed device. -/
theorem find_device_first_bound_and_notfound_fatal
    (devices : List Nat) (infoRes : Option Info) (d : Nat) (rest : List Nat)
    (hne : devices = d :: rest) :
    (find_device initDevState devices infoRes).2.dev = some d ∧
    find_device initDevState [] infoRes = (false, initDevState) ∧
    main_start [] infoRes = .fatalExit 1 := by
  subst hne
  cases infoRes <;> simp [find_device, main_start, initDevState]

/-- Witness for C8: two listed devices, the first one is bound. -/
theorem find_device_first_bound_and_notfound_fatal_witness :
    ([4, 9] : List Nat) = 4 :: [9] ∧
    ((find_device initDevState [4, 9] (some sampleInfo)).2.dev = some 4 ∧
     find_device initDevState [] (some sampleInfo) = (false, initDevState) ∧
     main_start [] (some sampleInfo) = .fatalExit 1) :=
  ⟨rfl, find_device_first_bound_and_notfound_fatal [4, 9] (some sampleInfo) 4 [9] rfl⟩

/-- From a state with no live token, any `send_config_command` run goes
through PIN authentication before any command send. -/
theorem send_auth_first_of_no_token
    (s : DevState) (cid val ver newTok : Nat) (authOk : Bool)
    (tagF : Nat → List Nat → List Nat) (exchangeOk : Bool)
    (h : s.pin_token = none) :
    authBeforeSend
      (send_config_command s cid val ver authOk newTok tagF exchangeOk).2.2 =
      true := by
  by_cases hct : s.ctap2 = false
  · simp [send_config_command, h, get_pin_token, hct, authBeforeSend]
  · rcases hi : s.info with _ | i
    · simp [send_config_command, h, get_pin_token, hct, hi, authBeforeSend]
    · by_cases hcp : i.clientPin = false
      · simp [send_config_command, h, get_pin_token, hct, hi, hcp, authBeforeSend]
      · cases authOk
        · simp [send_config_command, h, get_pin_token, hct, hi, hcp, authBeforeSend]
        · cases exchangeOk <;>
            simp [send_config_command, h, get_pin_token, hct, hi, hcp,
              send_dispatch, authBeforeSend]

/-- C2: a `send_config_command` call that returns failure — for any reason:
failed token acquisition, transport error, or device-side rejection —
leaves no live token, made at most one command exchange (no retry), and
any subsequent call therefore authenticates before sending anything
instead of reusing the old token. -/
theorem send_config_command_failure_invalidates_token
    (s : DevState) (cid val ver newTok : Nat) (authOk : Bool)
    (tagF : Nat → List Nat → List Nat) (exchangeOk : Bool)
    (hfail :
      (send_config_command s cid val ver authOk newTok tagF exchangeOk).1 = false) :
    (send_config_command s cid val ver authOk newTok tagF exchangeOk).2.1.pin_token
      = none ∧
    countSends
      (send_config_command s cid val ver authOk newTok tagF exchangeOk).2.2 ≤ 1 ∧
    ∀ cid2 val2 ver2 newTok2 : Nat, ∀ authOk2 : Bool,
      ∀ tagF2 : Nat → List Nat → List Nat, ∀ exchangeOk2 : Bool,
      authBeforeSend (send_config_command
        (send_config_command s cid val ver authOk newTok tagF exchangeOk).2.1
        cid2 val2 ver2 authOk2 newTok2 tagF2 exchangeOk2).2.2 = true := by
  have key :
      (send_config_command s cid val ver authOk newTok tagF exchangeOk).2.1.pin_token
        = none ∧
      countSends
        (send_config_command s cid val ver authOk newTok tagF exchangeOk).2.2 ≤ 1 := by
    rcases htok : s.pin_token with _ | t
    · by_cases hct : s.ctap2 = false
      · simp [send_config_command, htok, get_pin_token, hct, countSends]
      · rcases hi : s.info with _ | i
        · simp [send_config_command, htok, get_pin_token, hct, hi, countSends]
        · by_cases hcp : i.clientPin = false
          · simp [send_config_command, htok, get_pin_token, hct, hi, hcp, countSends]
          · cases authOk
            · simp [send_config_command, htok, get_pin_token, hct, hi, hcp, countSends]
            · cases exchangeOk
              · simp [send_config_command, htok, get_pin_token, hct, hi, hcp,
                  send_dispatch, countSends]
              · simp [send_config_command, htok, get_pin_token, hct, hi, hcp,
                  send_dispatch] at hfail
    · cases exchangeOk
      · simp [send_config_command, htok, send_dispatch, countSends]
      · simp [send_config_command, htok, send_dispatch] at hfail
  refine ⟨key.1, key.2, ?_⟩
  intro cid2 val2 ver2 newTok2 authOk2 tagF2 exchangeOk2
  exact send_auth_first_of_no_token _ cid2 val2 ver2 newTok2 authOk2 tagF2
    exchangeOk2 key.1

/-- Witness for C2: a rejected dispatch on a device holding token 7. -/
theorem send_config_command_failure_invalidates_token_witness :
    (send_config_command sampleTokState 5 30 0 false 0 sampleTag false).1 = false ∧
    ((send_config_command sampleTokState 5 30 0 false 0 sampleTag false).2.1.pin_token
        = none ∧
     countSends
       (send_config_command sampleTokState 5 30 0 false 0 sampleTag false).2.2 ≤ 1 ∧
     ∀ cid2 val2 ver2 newTok2 : Nat, ∀ authOk2 : Bool,
       ∀ tagF2 : Nat → List Nat → List Nat, ∀ exchangeOk2 : Bool,
       authBeforeSend (send_config_command
         (send_config_command sampleTokState 5 30 0 false 0 sampleTag false).2.1
         cid2 val2 ver2 authOk2 newTok2 tagF2 exchangeOk2).2.2 = true) :=
  ⟨by decide,
    send_config_command_failure_invalidates_token sampleTokState 5 30 0 0 false
      sampleTag false (by decide)⟩

/-- C3 counterexample: with a PIN already set on the device, the 3-character
new PIN "abc" is not rejected locally: `set_pin` goes straight into the
change_pin transport exchange, so the claimed client-side length check on
the change path does not exist. -/
theorem set_pin_change_path_no_length_check_counterexample :
    ("abc" : String).length < 4 ∧
    (set_pin sampleTokState "abc" false none).2.2 = [Event.changePinExchange] := by
  constructor
  · decide
  · decide

/-- C3 amended: only the first-time-set path checks the new PIN's length,
and only against the lower bound 4: a new PIN shorter than 4 characters
fails there locally, with no transport exchange (the change path performs
no local length check, as the counterexample shows). -/
theorem set_pin_first_set_length_check
    (s : DevState) (i : Info) (new_pin : String) (deviceOk : Bool)
    (newInfo : Option Info)
    (hct : s.ctap2 = true) (hi : s.info = some i) (hcp : i.clientPin = false)
    (hshort : new_pin.length < 4) :
    set_pin s new_pin deviceOk newInfo =
      (false, { s with client_pin := true }, []) := by
  simp [set_pin, hct, hi, hcp, hshort]

/-- Witness for C3's amended statement: "abc" on a PIN-less device. -/
theorem set_pin_first_set_length_check_witness :
    sampleNoPinState.ctap2 = true ∧
    sampleNoPinState.info = some { clientPin := false, snapshot := 0 } ∧
    (Info.mk false 0).clientPin = false ∧ ("abc" : String).length < 4 ∧
    set_pin sampleNoPinState "abc" true none =
      (false, { sampleNoPinState with client_pin := true }, []) :=
  ⟨rfl, rfl, rfl, by decide,
    set_pin_first_set_length_check sampleNoPinState (Info.mk false 0) "abc" true
      none rfl rfl rfl (by decide)⟩

/-- C5 counterexample: a successful PIN change returns without refetching
the Device Info: the only exchange is the change itself, and the cached
info keeps the pre-call snapshot even though the device-side refetch
oracle offers a fresh one. -/
theorem change_pin_stale_info_counterexample :
    (set_pin sampleTokState "9999" true (some (Info.mk true 1))).1 = true ∧
    (set_pin sampleTokState "9999" true (some (Info.mk true 1))).2.1.info =
      some (Info.mk true 0) ∧
    (set_pin sampleTokState "9999" true (some (Info.mk true 1))).2.2 =
      [Event.changePinExchange] := by
  refine ⟨by decide, by decide, by decide⟩

/-- C5 amended: after a successful first-time PIN set and after a
successful reset, the Device Info is refetched before the operation
returns; a successful PIN change does not refetch it. -/
theorem info_refetched_after_set_and_reset
    (s s2 : DevState) (i : Info) (new_pin : String) (deviceOk : Bool)
    (newInfo resetInfo : Option Info) (resetOk : Bool)
    (hi : s.info = some i) (hcp : i.clientPin = false)
    (hset : (set_pin s new_pin deviceOk newInfo).1 = true)
    (hreset : (reset_device s2 resetOk resetInfo).1 = true) :
    ((set_pin s new_pin deviceOk newInfo).2.1.info = newInfo ∧
     Event.getInfoExchange ∈ (set_pin s new_pin deviceOk newInfo).2.2) ∧
    ((reset_device s2 resetOk resetInfo).2.1.info = resetInfo ∧
     Event.getInfoExchange ∈ (reset_device s2 resetOk resetInfo).2.2) := by
  constructor
  · by_cases hct : s.ctap2 = false
    · simp [set_pin, hct] at hset
    · by_cases hlen : new_pin.length < 4
      · simp [set_pin, hct, hi, hcp, hlen] at hset
      · cases deviceOk
        · simp [set_pin, hct, hi, hcp, hlen] at hset
        · rcases newInfo with _ | ni
          · simp [set_pin, hct, hi, hcp, hlen] at hset
          · simp [set_pin, hct, hi, hcp, hlen]
  · cases hct : s2.ctap2 <;> cases resetOk <;> rcases resetInfo with _ | ri <;>
      simp_all [reset_device]

/-- Witness for C5's amended statement: a first-time PIN set and a reset,
both succeeding, both refetch the info. -/
theorem info_refetched_after_set_and_reset_witness :
    sampleNoPinState.info = some { clientPin := false, snapshot := 0 } ∧
    (Info.mk false 0).clientPin = false ∧
    (set_pin sampleNoPinState "1234" true (some sampleInfo)).1 = true ∧
    (reset_device sampleTokState true (some (Info.mk false 3))).1 = true ∧
    (((set_pin sampleNoPinState "1234" true (some sampleInfo)).2.1.info =
        some sampleInfo ∧
      Event.getInfoExchange ∈
        (set_pin sampleNoPinState "1234" true (some sampleInfo)).2.2) ∧
     ((reset_device sampleTokState true (some (Info.mk false 3))).2.1.info =
        some (Info.mk false 3) ∧
      Event.getInfoExchange ∈
        (reset_device sampleTokState true (some (Info.mk false 3))).2.2)) :=
  ⟨rfl, rfl, by decide, by decide,
    info_refetched_after_set_and_reset sampleNoPinState sampleTokState
      (Info.mk false 0) "1234" true (some sampleInfo) (some (Info.mk false 3))
      true rfl rfl (by decide) (by decide)⟩

/-- C6: a `get_pin_token` call either performs no token exchange or exactly
one scoped to permission 0x20, and every token request occurring inside a
configuration dispatch carries permission 0x20. -/
theorem pin_token_permission_acfg
    (s s2 : DevState) (ver newTok cid val ver2 newTok2 p : Nat)
    (authOk authOk2 : Bool) (tagF : Nat → List Nat → List Nat)
    (exchangeOk : Bool)
    (hp : Event.authRequest p ∈
      (send_config_command s2 cid val ver2 authOk2 newTok2 tagF exchangeOk).2.2) :
    ((get_pin_token s ver authOk newTok).2.2 = [] ∨
     (get_pin_token s ver authOk newTok).2.2 =
       [Event.authRequest PERMISSION_ACFG]) ∧
    p = PERMISSION_ACFG := by
  constructor
  · by_cases hct : s.ctap2 = false
    · simp [get_pin_token, hct]
    · rcases hi : s.info with _ | i
      · simp [get_pin_token, hct, hi]
      · by_cases hcp : i.clientPin = false
        · simp [get_pin_token, hct, hi, hcp]
        · cases authOk <;> simp [get_pin_token, hct, hi, hcp]
  · rcases htok : s2.pin_token with _ | t
    · by_cases hct : s2.ctap2 = false
      · simp [send_config_command, htok, get_pin_token, hct] at hp
      · rcases hi : s2.info with _ | i
        · simp [send_config_command, htok, get_pin_token, hct, hi] at hp
        · by_cases hcp : i.clientPin = false
          · simp [send_config_command, htok, get_pin_token, hct, hi, hcp] at hp
          · cases authOk2
            · simp [send_config_command, htok, get_pin_token, hct, hi, hcp] at hp
              exact hp
            · cases exchangeOk <;>
                simp [send_config_command, htok, get_pin_token, hct, hi, hcp,
                  send_dispatch] at hp <;> exact hp
    · cases exchangeOk <;> simp [send_config_command, htok, send_dispatch] at hp

/-- Witness for C6: a fresh authentication inside a dispatch requests 0x20. -/
theorem pin_token_permission_acfg_witness :
    Event.authRequest 0x20 ∈
      (send_config_command sampleNoTokState 5 30 2 true 9 sampleTag true).2.2 ∧
    (((get_pin_token sampleNoTokState 2 true 9).2.2 = [] ∨
      (get_pin_token sampleNoTokState 2 true 9).2.2 =
        [Event.authRequest PERMISSION_ACFG]) ∧
     (0x20 : Nat) = PERMISSION_ACFG) :=
  ⟨by decide,
    pin_token_permission_acfg sampleNoTokState sampleNoTokState 2 9 5 30 2 9 0x20
      true true sampleTag true (by decide)⟩

/-- C9: with a live token, a run of configuration dispatches whose
exchanges all succeed leaves the device object exactly as it was (the
token in particular), performs no PIN-token request anywhere, and every
call reports success. -/
theorem send_config_command_success_frame
    (s : DevState) (t : Nat) (tagF : Nat → List Nat → List Nat)
    (cmds : List (Nat × Nat)) (htok : s.pin_token = some t) :
    (runSeqSucc tagF s cmds).1 = s ∧
    hasAuth (runSeqSucc tagF s cmds).2.1 = false ∧
    (runSeqSucc tagF s cmds).2.2 = List.replicate cmds.length true := by
  induction cmds with
  | nil => simp [runSeqSucc, hasAuth]
  | cons c rest ih =>
    obtain ⟨cid, val⟩ := c
    have hstep : send_config_command s cid val 0 false 0 tagF true =
        (true, s,
         [Event.macCompute t (configMessage cid val),
          Event.cborSend CTAP_AUTHENTICATOR_CONFIG
            (envelopeBytes cid val s.pin_protocol
              (tagF t (configMessage cid val)))]) := by
      simp [send_config_command, htok, send_dispatch]
    refine ⟨?_, ?_, ?_⟩
    · simp [runSeqSucc, hstep, ih.1]
    · simp [runSeqSucc, hstep, hasAuth] at ih ⊢
      exact ih.2.1
    · simp [runSeqSucc, hstep, ih.2.2, List.replicate_succ]

/-- Witness for C9: two successful dispatches on a device holding token 7. -/
theorem send_config_command_success_frame_witness :
    sampleTokState.pin_token = some 7 ∧
    ((runSeqSucc sampleTag sampleTokState [(5, 30), (6, 7)]).1 = sampleTokState ∧
     hasAuth (runSeqSucc sampleTag sampleTokState [(5, 30), (6, 7)]).2.1 = false ∧
     (runSeqSucc sampleTag sampleTokState [(5, 30), (6, 7)]).2.2 =
       List.replicate ([(5, 30), (6, 7)] : List (Nat × Nat)).length true) :=
  ⟨rfl,
    send_config_command_success_frame sampleTokState 7 sampleTag
      [(5, 30), (6, 7)] rfl⟩

end PicoFido
